import Mathlib

/-!
Verification development for the idem-serverless repository.

Shallow embedding of the core subsystems referenced by the claims:
* `idem-handler/src/status.rs` — the bit-flag status code and its combinators;
* `idem-serverless/src/entry.rs` — the status-driven handler-chain loop;
* `idem-handler/src/exchange.rs` — the exchange (input/output discipline);
* `idem-openapi/src/json_path_builder.rs` — the JSON-pointer path builder;
* `idem-openapi/src/lib.rs` — the OpenAPI validator (path matching,
  JSON-Schema validation, request validation);
* `idem-serverless/src/implementation/jwt/handler.rs` — the JWT handler flow.

Rust strings are embedded as `List Char`; Rust `i32` bit patterns are embedded
as natural numbers in unsigned (bit-pattern) view, which is faithful for the
bitwise operators the claims mention.  Fallible Rust code returns `Except` /
`Option`; a Rust `todo!()` (a panic) is modelled as the `none` outcome of an
`Option`-valued result where it is reachable.
-/

/-- Rust `String` / `&str`, embedded as its character list. -/
abbrev Str := List Char

namespace IdemHandler

/-! ## `idem-handler/src/status.rs` -/

/-- `pub struct Code(pub i32)` — an `i32` bit set, in unsigned bit-pattern view. -/
structure Code where
  val : Nat
deriving DecidableEq

namespace Code

def OK : Code := ⟨1⟩
def REQUEST_COMPLETED : Code := ⟨1 <<< 1⟩
def SERVER_ERROR : Code := ⟨1 <<< 2⟩
def CLIENT_ERROR : Code := ⟨1 <<< 3⟩
def DISABLED : Code := ⟨1 <<< 4⟩
def TIMEOUT : Code := ⟨1 <<< 5⟩
def CONTINUE : Code := ⟨1 <<< 6⟩

/-- `fn any_flags(&self, flags: Code) -> bool { self.0 & flags.0 != 0 }` -/
def any_flags (self flags : Code) : Bool :=
  self.val &&& flags.val != 0

/-- `fn any_flags_clear(&self, flags: Code) -> bool { self.0 & flags.0 != flags.0 }` -/
def any_flags_clear (self flags : Code) : Bool :=
  self.val &&& flags.val != flags.val

/-- `fn all_flags(&self, flags: Code) -> bool { self.0 & flags.0 == 0 }`
(the body in the source compares against `0`, not against `flags.0`). -/
def all_flags (self flags : Code) : Bool :=
  self.val &&& flags.val == 0

/-- `fn all_flags_clear(&self, flags: Code) -> bool { self.0 & flags.0 == 0 }` -/
def all_flags_clear (self flags : Code) : Bool :=
  self.val &&& flags.val == 0

/-- `impl BitOr for Code` -/
def bitor (self rhs : Code) : Code :=
  ⟨self.val ||| rhs.val⟩

/-- `impl BitAnd for Code` -/
def bitand (self rhs : Code) : Code :=
  ⟨self.val &&& rhs.val⟩

/-- `impl Not for Code` — complement of the 32-bit pattern. -/
def compl32 (self : Code) : Code :=
  ⟨self.val ^^^ (2 ^ 32 - 1)⟩

end Code

/-- `pub struct HandlerStatus` from `status.rs`. -/
structure HandlerStatus where
  code : Code
  message : Option String
  description : Option String
deriving DecidableEq

namespace HandlerStatus

/-- `HandlerStatus::new` -/
def new (code : Code) : HandlerStatus :=
  { code := code, message := none, description := none }

/-- `HandlerStatus::set_message` -/
def set_message (self : HandlerStatus) (message : String) : HandlerStatus :=
  { self with message := some message }

/-- `HandlerStatus::message()` — `self.message.unwrap_or("")`. -/
def message_or_empty (self : HandlerStatus) : String :=
  self.message.getD ""

end HandlerStatus

end IdemHandler

namespace IdemEntry

open IdemHandler

/-!
## `idem-serverless/src/entry.rs` — the handler-execution loop

For each handler the loop inspects the returned status code:

```rust
if status.code().any_flags(Code::TIMEOUT | Code::SERVER_ERROR | Code::CLIENT_ERROR)
    { todo!("Handle exception here") }
else if status.code().any_flags(Code::CONTINUE) { todo!("Handle continue flow here") }
else if status.code().any_flags(Code::OK | Code::DISABLED) { continue; }
else if status.code().all_flags(Code::REQUEST_COMPLETED) { break 'handler_exec; }
```

When none of the four branches fires, the `match` arm ends and the `for` loop
proceeds to the next handler.  The two `todo!()` branches panic, which aborts
the loop (and the whole entry function).
-/

/-- What the loop body does after inspecting one status code. -/
inductive EntryStep where
  | next
  | brk
  | panic
deriving DecidableEq

/-- The decision the `entry` loop takes on one returned status code. -/
def entry_decide (c : Code) : EntryStep :=
  if c.any_flags ((Code.TIMEOUT.bitor Code.SERVER_ERROR).bitor Code.CLIENT_ERROR) then
    .panic
  else if c.any_flags Code.CONTINUE then
    .panic
  else if c.any_flags (Code.OK.bitor Code.DISABLED) then
    .next
  else if c.all_flags Code.REQUEST_COMPLETED then
    .brk
  else
    .next

/-- Number of handlers the `entry` loop invokes, given the status code each
handler would return.  A handler is invoked, then its status decides whether
the loop continues (`next`), breaks (`brk`) or aborts by panicking (`panic`). -/
def entry_invoked : List Code → Nat
  | [] => 0
  | c :: rest =>
    match entry_decide c with
    | .next => 1 + entry_invoked rest
    | .brk => 1
    | .panic => 1

end IdemEntry

/-! ## Claims C1, C2, C9 -/

/-- C1: the spec says a status containing the `REQUEST_COMPLETED` bit makes the
executor loop stop invoking the remaining handlers.  In the code the `break` is
guarded by `all_flags(Code::REQUEST_COMPLETED)`, whose body tests
`code & flags == 0`; that test is `false` exactly when the bit IS set, so the
loop falls through every branch and continues into the rest of the chain: after
a handler returns `REQUEST_COMPLETED`, every remaining handler is still driven
exactly as if the completed handler had returned `OK`. -/
theorem C1_request_completed_does_not_short_circuit :
    (∀ rest : List IdemHandler.Code,
        IdemEntry.entry_invoked (IdemHandler.Code.REQUEST_COMPLETED :: rest) =
          1 + IdemEntry.entry_invoked rest)
    ∧ IdemEntry.entry_decide IdemHandler.Code.REQUEST_COMPLETED ≠ IdemEntry.EntryStep.brk := by
  constructor
  · intro rest
    rfl
  · decide

/-- C2: the spec says `all_flags_set(mask)` tests `code & mask == mask`.  The
source's `Code::all_flags` instead tests `code & mask == 0` (the same body as
`all_flags_clear`), so at `code = mask = REQUEST_COMPLETED`, where
`code & mask = mask ≠ 0`, the combinator returns `false` although the claim
requires `true`.  The `any_flags` half of the claim does hold on this input. -/
theorem C2_all_flags_returns_flags_clear :
    IdemHandler.Code.REQUEST_COMPLETED.val &&& IdemHandler.Code.REQUEST_COMPLETED.val =
      IdemHandler.Code.REQUEST_COMPLETED.val
    ∧ IdemHandler.Code.all_flags IdemHandler.Code.REQUEST_COMPLETED
        IdemHandler.Code.REQUEST_COMPLETED = false
    ∧ IdemHandler.Code.any_flags IdemHandler.Code.REQUEST_COMPLETED
        IdemHandler.Code.REQUEST_COMPLETED = true := by
  refine ⟨by decide, by decide, by decide⟩

/-- Bit-level helper: a conjunction with a disjunction of masks is nonzero iff
one of the two conjunctions is. -/
theorem Nat.land_lor_ne_zero_iff (c a b : Nat) :
    c &&& (a ||| b) ≠ 0 ↔ c &&& a ≠ 0 ∨ c &&& b ≠ 0 := by
  constructor
  · intro h
    obtain ⟨i, hi⟩ := Nat.ne_zero_implies_bit_true h
    rw [Nat.testBit_land, Nat.testBit_lor, Bool.and_eq_true, Bool.or_eq_true] at hi
    rcases hi.2 with hia | hib
    · exact Or.inl fun h0 => by
        have := Nat.testBit_land c a i
        rw [h0, Nat.zero_testBit, hi.1, hia] at this
        exact Bool.false_ne_true this
    · exact Or.inr fun h0 => by
        have := Nat.testBit_land c b i
        rw [h0, Nat.zero_testBit, hi.1, hib] at this
        exact Bool.false_ne_true this
  · intro h
    rcases h with h | h
    · obtain ⟨i, hi⟩ := Nat.ne_zero_implies_bit_true h
      rw [Nat.testBit_land, Bool.and_eq_true] at hi
      intro h0
      have := Nat.testBit_land c (a ||| b) i
      rw [h0, Nat.zero_testBit, hi.1, Nat.testBit_lor, hi.2] at this
      simp at this
    · obtain ⟨i, hi⟩ := Nat.ne_zero_implies_bit_true h
      rw [Nat.testBit_land, Bool.and_eq_true] at hi
      intro h0
      have := Nat.testBit_land c (a ||| b) i
      rw [h0, Nat.zero_testBit, hi.1, Nat.testBit_lor, hi.2] at this
      simp at this

/-- C9: each of the seven named status codes is a single distinct bit
(`OK = 2^0` through `CONTINUE = 2^6`), and `any_flags` distributes over the
bitwise-or of two masks: `any_flags(a|b)` holds iff `any_flags(a)` or
`any_flags(b)` does. -/
theorem C9_codes_single_bits_any_flags_or :
    (IdemHandler.Code.OK.val = 2 ^ 0
      ∧ IdemHandler.Code.REQUEST_COMPLETED.val = 2 ^ 1
      ∧ IdemHandler.Code.SERVER_ERROR.val = 2 ^ 2
      ∧ IdemHandler.Code.CLIENT_ERROR.val = 2 ^ 3
      ∧ IdemHandler.Code.DISABLED.val = 2 ^ 4
      ∧ IdemHandler.Code.TIMEOUT.val = 2 ^ 5
      ∧ IdemHandler.Code.CONTINUE.val = 2 ^ 6)
    ∧ ∀ c a b : IdemHandler.Code,
        c.any_flags (a.bitor b) = (c.any_flags a || c.any_flags b) := by
  refine ⟨by decide, ?_⟩
  intro c a b
  simp only [IdemHandler.Code.any_flags, IdemHandler.Code.bitor]
  rw [Bool.eq_iff_iff]
  simp only [bne_iff_ne, ne_eq, Bool.or_eq_true]
  exact Nat.land_lor_ne_zero_iff c.val a.val b.val

namespace IdemExchange

/-!
## `idem-handler/src/exchange.rs`

`Exchange<Input, Output, Metadata>` owns an optional input, output and
metadata, two listener lists and an attachment store.  The attachment store
(`HashMap<(AttachmentKey, TypeId), Box<dyn Any + Send>>`) is not touched by the
claims about the input discipline; it is embedded as a type parameter `A`
threaded through the callbacks, which mirrors the
`FnMut(&mut T, &mut Attachments)` closure shape as state passing.
-/

/-- `Callback<T>` — an owned closure `FnMut(&mut T, &mut Attachments)`. -/
structure Callback (T A : Type) where
  callback : T → A → T × A

/-- `Callback::invoke` -/
def Callback.invoke {T A : Type} (cb : Callback T A) (write : T) (att : A) : T × A :=
  cb.callback write att

/-- `pub struct Exchange<Input, Output, Metadata>` -/
structure Exchange (I O M A : Type) where
  metadata : Option M
  input : Option I
  output : Option O
  input_listeners : List (Callback I A)
  output_listeners : List (Callback O A)
  attachments : A

namespace Exchange

variable {I O M A : Type}

/-- `Exchange::new` (given the empty attachment store). -/
def new (att0 : A) : Exchange I O M A :=
  { metadata := none, input := none, output := none,
    input_listeners := [], output_listeners := [], attachments := att0 }

/-- `Exchange::add_metadata` -/
def add_metadata (e : Exchange I O M A) (m : M) : Exchange I O M A :=
  { e with metadata := some m }

/-- `Exchange::add_input_listener` -/
def add_input_listener (e : Exchange I O M A) (cb : Callback I A) : Exchange I O M A :=
  { e with input_listeners := e.input_listeners ++ [cb] }

/-- `Exchange::add_output_listener` -/
def add_output_listener (e : Exchange I O M A) (cb : Callback O A) : Exchange I O M A :=
  { e with output_listeners := e.output_listeners ++ [cb] }

/-- Running a drained listener list in registration order over the value and
the attachment store. -/
def run_callbacks {T : Type} (cbs : List (Callback T A)) (t : T) (att : A) : T × A :=
  cbs.foldl (fun ta cb => cb.invoke ta.1 ta.2) (t, att)

/-- `Exchange::execute_input_callbacks` — fails when no input is present;
otherwise runs and drains the input listeners. -/
def execute_input_callbacks (e : Exchange I O M A) : Except Unit (Exchange I O M A) :=
  match e.input with
  | some inp =>
    let ta := run_callbacks e.input_listeners inp e.attachments
    .ok { e with input := some ta.1, attachments := ta.2, input_listeners := [] }
  | none => .error ()

/-- `Exchange::execute_output_callbacks` -/
def execute_output_callbacks (e : Exchange I O M A) : Except Unit (Exchange I O M A) :=
  match e.output with
  | some out =>
    let ta := run_callbacks e.output_listeners out e.attachments
    .ok { e with output := some ta.1, attachments := ta.2, output_listeners := [] }
  | none => .error ()

/-- `Exchange::save_input` — `self.input = Some(request);` (returns unit in the
source; the updated exchange here). -/
def save_input (e : Exchange I O M A) (request : I) : Exchange I O M A :=
  { e with input := some request }

/-- `Exchange::input` — borrow of the input or `Err(())`. -/
def getInput (e : Exchange I O M A) : Except Unit I :=
  match e.input with
  | some inp => .ok inp
  | none => .error ()

/-- `Exchange::take_request` — runs the input listeners, then moves the input
out (leaving `None`). -/
def take_request (e : Exchange I O M A) : Except Unit I × Exchange I O M A :=
  match execute_input_callbacks e with
  | .ok e' =>
    match e'.input with
    | some inp => (.ok inp, { e' with input := none })
    | none => (.error (), e')
  | .error _ => (.error (), e)

/-- `Exchange::save_output` -/
def save_output (e : Exchange I O M A) (response : O) : Exchange I O M A :=
  { e with output := some response }

/-- `Exchange::output` -/
def getOutput (e : Exchange I O M A) : Except Unit O :=
  match e.output with
  | some out => .ok out
  | none => .error ()

/-- `Exchange::take_output` -/
def take_output (e : Exchange I O M A) : Except Unit O × Exchange I O M A :=
  match execute_output_callbacks e with
  | .ok e' =>
    match e'.output with
    | some out => (.ok out, { e' with output := none })
    | none => (.error (), e')
  | .error _ => (.error (), e)

end Exchange

end IdemExchange

/-! ## Claim C6 -/

/-- A concrete exchange run for claim C6: save an input, consume it with
`take_request`, then call `save_input` again. -/
def c6Exchange0 : IdemExchange.Exchange Nat Nat Nat Unit :=
  IdemExchange.Exchange.new ()

def c6AfterTake : Except Unit Nat × IdemExchange.Exchange Nat Nat Nat Unit :=
  IdemExchange.Exchange.take_request (c6Exchange0.save_input 1)

/-- C6 counterexample: the claim says `save_input` after the input has been
consumed by `take_request` fails.  In the source `save_input` unconditionally
stores (`self.input = Some(request)`) and returns unit — it cannot fail — so
after consuming input `1`, saving input `2` succeeds and the new input is
observable through `input()`. -/
theorem C6_cex_save_input_after_take_succeeds :
    c6AfterTake.1 = Except.ok 1
    ∧ c6AfterTake.2.input = none
    ∧ (c6AfterTake.2.save_input 2).input = some 2
    ∧ (c6AfterTake.2.save_input 2).getInput = Except.ok 2 := by
  refine ⟨rfl, rfl, rfl, rfl⟩

/-- C6 amended: `save_input` never fails — on every exchange, consumed or not,
it stores the given input, and the stored input is observable by a subsequent
`input()` call. -/
theorem C6_save_input_always_stores {I O M A : Type}
    (e : IdemExchange.Exchange I O M A) (v : I) :
    (e.save_input v).input = some v
    ∧ (e.save_input v).getInput = Except.ok v := by
  exact ⟨rfl, rfl⟩

namespace IdemJsonPath

/-!
## `idem-openapi/src/json_path_builder.rs`

`JsonPointerPathBuilder::add_segment` replaces `/` by `~1` when present and
pushes the segment; `build` joins the segments with `/`.
(`node_finder.rs::JsonPath::add_segment` has the identical body.)
-/

structure JsonPointerPathBuilder where
  segments : List Str
deriving DecidableEq

/-- `segment.replace("/", "~1")` — the pattern is the single character `/`,
so the replacement maps each `/` to the two characters `~1`. -/
def replace_slash (s : Str) : Str :=
  s.flatMap fun c => if c = '/' then ['~', '1'] else [c]

namespace JsonPointerPathBuilder

/-- `JsonPointerPathBuilder::new` -/
def new : JsonPointerPathBuilder := ⟨[]⟩

/-- `JsonPointerPathBuilder::add_segment` -/
def add_segment (b : JsonPointerPathBuilder) (segment : Str) : JsonPointerPathBuilder :=
  if segment.contains '/' then ⟨b.segments ++ [replace_slash segment]⟩
  else ⟨b.segments ++ [segment]⟩

/-- `JsonPointerPathBuilder::back` -/
def back (b : JsonPointerPathBuilder) : JsonPointerPathBuilder :=
  ⟨b.segments.dropLast⟩

/-- `JsonPointerPathBuilder::build` — `self.segments.join("/")`. -/
def build (b : JsonPointerPathBuilder) : Str :=
  List.intercalate ['/'] b.segments

end JsonPointerPathBuilder

/-- The escaped segment never contains a raw `/`. -/
theorem replace_slash_no_slash (s : Str) : ∀ c ∈ replace_slash s, c ≠ '/' := by
  intro c hc
  induction s with
  | nil => simp [replace_slash] at hc
  | cons c0 rest ih =>
    simp only [replace_slash, List.flatMap_cons] at hc
    rcases List.mem_append.mp hc with h | h
    · by_cases h0 : c0 = '/'
      · simp [h0] at h
        rcases h with h | h <;> simp [h]
      · simp [h0] at h
        simp [h, h0]
    · exact ih h

end IdemJsonPath

/-! ## Claim C8 -/

/-- C8 counterexample: the claim says the builder applies full RFC-6901
escaping, turning every `~` into `~0`.  The source only replaces `/` with
`~1`; a segment consisting of the single character `~` is pushed verbatim, so
the built pointer is `~`, not the RFC-6901 escape `~0`. -/
theorem C8_cex_tilde_not_escaped :
    (IdemJsonPath.JsonPointerPathBuilder.new.add_segment ['~']).build = ['~']
    ∧ (IdemJsonPath.JsonPointerPathBuilder.new.add_segment ['~']).build ≠ ['~', '0'] := by
  refine ⟨rfl, by decide⟩

/-- C8 amended: `add_segment` escapes only `/` (as `~1`): the appended segment
is the input with each `/` replaced by `~1` — in particular it contains no raw
`/` — and a segment without `/` (for example one containing `~`) is appended
completely unchanged. -/
theorem C8_add_segment_escapes_only_slash (b : IdemJsonPath.JsonPointerPathBuilder) (s : Str) :
    (∃ esc, b.add_segment s = ⟨b.segments ++ [esc]⟩ ∧ ∀ c ∈ esc, c ≠ '/')
    ∧ (s.contains '/' = false → b.add_segment s = ⟨b.segments ++ [s]⟩) := by
  have hmem : s.contains '/' = decide ('/' ∈ s) := by
    simp [List.contains]
  constructor
  · by_cases h : '/' ∈ s
    · refine ⟨IdemJsonPath.replace_slash s, ?_, IdemJsonPath.replace_slash_no_slash s⟩
      simp [IdemJsonPath.JsonPointerPathBuilder.add_segment, hmem, h]
    · refine ⟨s, ?_, ?_⟩
      · simp [IdemJsonPath.JsonPointerPathBuilder.add_segment, hmem, h]
      · intro c hc hceq
        exact h (hceq ▸ hc)
  · intro h
    have hnot : ¬ ('/' ∈ s) := by
      rw [hmem] at h
      exact of_decide_eq_false h
    simp [IdemJsonPath.JsonPointerPathBuilder.add_segment, hmem, hnot]

/-- C8 amended witness at a concrete input: a segment without `/` is appended
unchanged. -/
theorem C8_add_segment_witness :
    IdemJsonPath.JsonPointerPathBuilder.new.add_segment ['a'] = ⟨[['a']]⟩ :=
  (C8_add_segment_escapes_only_slash IdemJsonPath.JsonPointerPathBuilder.new ['a']).2 (by decide)

namespace IdemOpenApi

/-!
## `idem-openapi/src/lib.rs` — the OpenAPI validator

Data model: the subset of `serde_json::Value` and of the `oas3` crate's
specification types that the embedded functions read.  JSON numbers are
embedded as integers (`serde_json`'s integer-valued `Number`s; `as_i64` is the
identity on them and `as_f64` yields the same integer) — no claim depends on
non-integral numbers.  Fields of the `oas3` records that none of the embedded
functions reads are omitted.
-/

/-- `serde_json::Value` (integer-valued numbers). -/
inductive Value where
  | null
  | bool (b : Bool)
  | num (n : Int)
  | str (s : Str)
  | arr (items : List Value)
  | obj (fields : List (Str × Value))

mutual

/-- Structural equality of JSON values (serde_json's `PartialEq`), used by the
`HashSet` in the `uniqueItems` check. -/
def Value.beq : Value → Value → Bool
  | .null, .null => true
  | .bool a, .bool b => a == b
  | .num a, .num b => a == b
  | .str a, .str b => a == b
  | .arr a, .arr b => Value.beqList a b
  | .obj a, .obj b => Value.beqFields a b
  | _, _ => false

def Value.beqList : List Value → List Value → Bool
  | [], [] => true
  | x :: xs, y :: ys => Value.beq x y && Value.beqList xs ys
  | _, _ => false

def Value.beqFields : List (Str × Value) → List (Str × Value) → Bool
  | [], [] => true
  | (k1, v1) :: xs, (k2, v2) :: ys => k1 == k2 && Value.beq v1 v2 && Value.beqFields xs ys
  | _, _ => false

end

instance : BEq Value := ⟨Value.beq⟩

namespace Value

/-- `Value::as_str` -/
def as_str : Value → Option Str
  | .str s => some s
  | _ => none

/-- `Value::as_i64` (identity on the embedded integer numbers). -/
def as_i64 : Value → Option Int
  | .num n => some n
  | _ => none

/-- `Value::as_f64` — defined on numbers only; on an integer-valued number it
denotes that same integer. -/
def as_f64 : Value → Option Int
  | .num n => some n
  | _ => none

/-- `Value::as_bool` -/
def as_bool : Value → Option Bool
  | .bool b => some b
  | _ => none

/-- `Value::as_null` -/
def as_null : Value → Option Unit
  | .null => some ()
  | _ => none

/-- `Value::as_array` -/
def as_array : Value → Option (List Value)
  | .arr items => some items
  | _ => none

/-- `Value::as_object` -/
def as_object : Value → Option (List (Str × Value))
  | .obj fields => some fields
  | _ => none

end Value

/-- `oas3::spec::ObjectOrReference<T>` — an inline object or a `$ref`.  The
reference string is embedded as the bare component name (the crate parses
`#/components/<kind>/<name>` and looks the name up). -/
inductive ObjectOrReference (α : Type) where
  | obj (o : α)
  | ref (ref_path : Str)

/-- `oas3::spec::SchemaType` -/
inductive SchemaType where
  | boolean
  | integer
  | number
  | string
  | array
  | object
  | null
deriving DecidableEq

/-- `oas3::spec::SchemaTypeSet` -/
inductive SchemaTypeSet where
  | single (t : SchemaType)
  | multiple (ts : List SchemaType)
deriving DecidableEq

/-- The fields of `oas3::spec::ObjectSchema` that the validator reads,
parameterised by the recursive occurrence.  The numeric bounds are
`serde_json::Number`s in the crate; the validator reads them through
`as_i64` / `as_f64`, so they are embedded as integers directly. -/
structure SchemaCore (σ : Type) where
  schema_type : Option SchemaTypeSet := none
  all_of : List (ObjectOrReference σ) := []
  any_of : List (ObjectOrReference σ) := []
  one_of : List (ObjectOrReference σ) := []
  items : Option (ObjectOrReference σ) := none
  properties : List (Str × ObjectOrReference σ) := []
  required : List Str := []
  multiple_of : Option Int := none
  maximum : Option Int := none
  exclusive_maximum : Option Int := none
  minimum : Option Int := none
  exclusive_minimum : Option Int := none
  max_length : Option Nat := none
  min_length : Option Nat := none
  pattern : Option Str := none
  max_items : Option Nat := none
  min_items : Option Nat := none
  unique_items : Option Bool := none
  format : Option Str := none

/-- `oas3::spec::ObjectSchema` (tied recursive knot). -/
inductive ObjectSchema where
  | mk (core : SchemaCore ObjectSchema)

def ObjectSchema.core : ObjectSchema → SchemaCore ObjectSchema
  | .mk c => c

/-- `oas3::spec::MediaType` (only its `schema` field is read). -/
structure MediaType where
  schema : Option (ObjectOrReference ObjectSchema) := none

/-- `oas3::spec::RequestBody` -/
structure RequestBody where
  content : List (Str × MediaType) := []
  required : Option Bool := none

/-- `oas3::spec::ParameterIn` -/
inductive ParameterIn where
  | path
  | query
  | header
  | cookie
deriving DecidableEq

/-- `oas3::spec::Parameter` (the fields the validator reads). -/
structure Parameter where
  name : Str
  location : ParameterIn
  required : Option Bool := none
  schema : Option (ObjectOrReference ObjectSchema) := none
  content : Option (List (Str × MediaType)) := none

/-- `oas3::spec::Operation` (the fields the validator reads). -/
structure Operation where
  parameters : List (ObjectOrReference Parameter) := []
  request_body : Option (ObjectOrReference RequestBody) := none

/-- `oas3::spec::PathItem` — the per-method operations. -/
structure PathItem where
  get : Option Operation := none
  put : Option Operation := none
  post : Option Operation := none
  delete : Option Operation := none
  options : Option Operation := none
  head : Option Operation := none
  patch : Option Operation := none
  trace : Option Operation := none

/-- `PathItem::methods()` — the present operations keyed by upper-case method
name, in the crate's field order. -/
def PathItem.methods (p : PathItem) : List (Str × Operation) :=
  [("GET".toList, p.get), ("PUT".toList, p.put), ("POST".toList, p.post),
   ("DELETE".toList, p.delete), ("OPTIONS".toList, p.options), ("HEAD".toList, p.head),
   ("PATCH".toList, p.patch), ("TRACE".toList, p.trace)].filterMap
    fun mo => mo.2.map fun op => (mo.1, op)

/-- `oas3::spec::Components` (the maps the resolvers read). -/
structure Components where
  schemas : List (Str × ObjectOrReference ObjectSchema) := []
  parameters : List (Str × ObjectOrReference Parameter) := []
  request_bodies : List (Str × ObjectOrReference RequestBody) := []

/-- `oas3::Spec` — `paths` is a `BTreeMap` iterated in order; it is embedded
as an association list whose order is the iteration order. -/
structure Spec where
  paths : Option (List (Str × PathItem)) := none
  components : Option Components := none

/-- Association-list lookup (`BTreeMap/HashMap::get`). -/
def alist_find {α : Type} (key : Str) : List (Str × α) → Option α
  | [] => none
  | kv :: rest => if kv.1 == key then some kv.2 else alist_find key rest

/-- `ObjectOrReference::<ObjectSchema>::resolve` — an inline object resolves to
itself; a reference is looked up among the components.  A reference whose
target is again a reference is modelled as unresolvable (no claim exercises
chained references). -/
def resolve_schema (spec : Spec) : ObjectOrReference ObjectSchema → Except Unit ObjectSchema
  | .obj o => .ok o
  | .ref name =>
    match spec.components with
    | some comps =>
      match alist_find name comps.schemas with
      | some (.obj o) => .ok o
      | some (.ref _) => .error ()
      | none => .error ()
    | none => .error ()

/-- `ObjectOrReference::<Parameter>::resolve` -/
def resolve_parameter (spec : Spec) : ObjectOrReference Parameter → Except Unit Parameter
  | .obj o => .ok o
  | .ref name =>
    match spec.components with
    | some comps =>
      match alist_find name comps.parameters with
      | some (.obj o) => .ok o
      | some (.ref _) => .error ()
      | none => .error ()
    | none => .error ()

/-- `ObjectOrReference::<RequestBody>::resolve` -/
def resolve_request_body (spec : Spec) : ObjectOrReference RequestBody → Except Unit RequestBody
  | .obj o => .ok o
  | .ref name =>
    match spec.components with
    | some comps =>
      match alist_find name comps.request_bodies with
      | some (.obj o) => .ok o
      | some (.ref _) => .error ()
      | none => .error ()
    | none => .error ()

/-- Behaviour of the external collaborators of `lib.rs`, abstracted:
* `regex_compiles` / `regex_matches` — the `regex` crate (`Regex::new` and
  `Regex::is_match`);
* `number_format_todo` — `OpenApiValidator::validate_number_format`, whose
  body is `todo!()` (it panics when reached); it is modelled as an
  unconstrained boolean function so that theorems quantified over all oracles
  hold for every possible behaviour — no claim reaches this call;
* `param_content_todo` — the `todo!()` branch of `validate_parameters` taken
  when a parameter carries a `content` field, likewise unconstrained and
  unreached by the claims. -/
structure Oracles where
  regex_compiles : Str → Bool
  regex_matches : Str → Str → Bool
  number_format_todo : Value → Str → Bool
  param_content_todo : Bool

/-- A concrete oracle instance for closed evaluations. -/
def trivialOracles : Oracles :=
  { regex_compiles := fun _ => true
    regex_matches := fun _ _ => true
    number_format_todo := fun _ _ => true
    param_content_todo := true }

/-- `Regex::new(p).is_ok_and(|re| re.is_match(s))` -/
def regex_ok_and_matches (o : Oracles) (pat s : Str) : Bool :=
  if o.regex_compiles pat then o.regex_matches pat s else false

/-- The literal format-regex constants of `idem-openapi/src/constants.rs`. -/
def DATE_REGEX : Str := "^(\\d\x7b4\x7d-\\d\x7b2\x7d-\\d\x7b2\x7d)$".toList
def DATE_TIME_REGEX : Str :=
  "^((?:(\\d\x7b4\x7d-\\d\x7b2\x7d-\\d\x7b2\x7d)T(\\d\x7b2\x7d:\\d\x7b2\x7d:\\d\x7b2\x7d(?:\\.\\d+)?))(Z|[\\+-]\\d\x7b2\x7d:\\d\x7b2\x7d)?)$".toList
def EMAIL_REGEX : Str := "^[\\w-\\.]+@([\\w-]+\\.)+[\\w-]\x7b2,4\x7d$".toList
def IPV4_REGEX : Str := "^((?:[0-9]\x7b1,3\x7d\\.)\x7b3\x7d[0-9]\x7b1,3\x7d)$".toList
def IPV6_REGEX : Str := "^((?:[0-9a-fA-F]\x7b1,4\x7d:)\x7b7\x7d[0-9a-fA-F]\x7b1,4\x7d)$".toList
def UUID_REGEX : Str :=
  "^[0-9a-f]\x7b8\x7d-[0-9a-f]\x7b4\x7d-[0-9a-f]\x7b4\x7d-[0-9a-f]\x7b4\x7d-[0-9a-f]\x7b12\x7d$".toList

namespace OpenApiValidator

/-- `OpenApiValidator::validate_string_format` — dispatch on the six known
format names; an unknown format yields `false`. -/
def validate_string_format (o : Oracles) (string_value fmt : Str) : Bool :=
  if fmt == "date".toList then regex_ok_and_matches o DATE_REGEX string_value
  else if fmt == "date-time".toList then regex_ok_and_matches o DATE_TIME_REGEX string_value
  else if fmt == "email".toList then regex_ok_and_matches o EMAIL_REGEX string_value
  else if fmt == "ipv4".toList then regex_ok_and_matches o IPV4_REGEX string_value
  else if fmt == "ipv6".toList then regex_ok_and_matches o IPV6_REGEX string_value
  else if fmt == "uuid".toList then regex_ok_and_matches o UUID_REGEX string_value
  else false

/-- `OpenApiValidator::validate_string_rules` -/
def validate_string_rules (o : Oracles) (value : Value) (schema : SchemaCore ObjectSchema) : Bool :=
  match value.as_str with
  | none => false
  | some str_val =>
    if schema.max_length.any fun mx => decide (mx < str_val.length) then false
    else if schema.min_length.any fun mn => decide (str_val.length < mn) then false
    else if (match schema.pattern with
             | some pat => o.regex_compiles pat && !o.regex_matches pat str_val
             | none => false) then false
    else if (match schema.format with
             | some fmt => !validate_string_format o str_val fmt
             | none => false) then false
    else true

/-- `OpenApiValidator::validate_integer_rules` — the final `format` check
calls `validate_number_format`, which is `todo!()` in the source; see
`Oracles.number_format_todo`. -/
def validate_integer_rules (o : Oracles) (value : Value) (schema : SchemaCore ObjectSchema) : Bool :=
  match value.as_i64 with
  | none => false
  | some int_val =>
    if schema.maximum.any fun mx => decide (mx < int_val) then false
    else if schema.minimum.any fun mn => decide (int_val < mn) then false
    else if schema.exclusive_maximum.any fun mx => decide (mx ≤ int_val) then false
    else if schema.exclusive_minimum.any fun mn => decide (int_val ≤ mn) then false
    else if schema.multiple_of.any fun m => decide (int_val % m ≠ 0) then false
    else if (match schema.format with
             | some fmt => !o.number_format_todo value fmt
             | none => false) then false
    else true

/-- `OpenApiValidator::validate_number_rules` -/
def validate_number_rules (value : Value) (schema : SchemaCore ObjectSchema) : Bool :=
  match value.as_f64 with
  | none => false
  | some number_val =>
    if schema.maximum.any fun mx => decide (mx < number_val) then false
    else if schema.minimum.any fun mn => decide (number_val < mn) then false
    else if schema.exclusive_maximum.any fun mx => decide (mx ≤ number_val) then false
    else if schema.exclusive_minimum.any fun mn => decide (number_val ≤ mn) then false
    else true

/-- `OpenApiValidator::validate_boolean_rules` -/
def validate_boolean_rules (value : Value) (_schema : SchemaCore ObjectSchema) : Bool :=
  match value.as_bool with
  | some _ => true
  | none => false

/-- `OpenApiValidator::validate_null_rules` -/
def validate_null_rules (value : Value) (_schema : SchemaCore ObjectSchema) : Bool :=
  match value.as_null with
  | some _ => true
  | none => false

/-- First-duplicate detection, the denotation of the `HashSet::insert` loop in
`validate_array_rules`. -/
def has_duplicate : List Value → Bool
  | [] => false
  | x :: xs => xs.contains x || has_duplicate xs

/-- `OpenApiValidator::validate_array_rules` — `recur` is the recursive call
to `validate_with_schema` (open recursion, closed by the fuel in
`validate_with_schema`). -/
def validate_array_rules (recur : Value → ObjectSchema → Spec → Bool)
    (value : Value) (schema : SchemaCore ObjectSchema) (spec : Spec) : Bool :=
  match value.as_array with
  | none => false
  | some array_val =>
    if schema.max_items.any fun mx => decide (mx < array_val.length) then false
    else if schema.min_items.any fun mn => decide (array_val.length < mn) then false
    else if (match schema.unique_items with
             | some true => has_duplicate array_val
             | _ => false) then false
    else if (match schema.items with
             | some item_schema =>
               match resolve_schema spec item_schema with
               | .ok resolved => !(array_val.all fun item => recur item resolved spec)
               | .error _ => false
             | none => false) then false
    else true

/-- Key membership in a JSON object (`Map::contains_key`). -/
def object_contains_key (key : Str) (fields : List (Str × Value)) : Bool :=
  fields.any fun kv => kv.1 == key

/-- `OpenApiValidator::validate_object_rules` — a property whose schema fails
to resolve, or which is absent from the object, is skipped. -/
def validate_object_rules (recur : Value → ObjectSchema → Spec → Bool)
    (value : Value) (schema : SchemaCore ObjectSchema) (spec : Spec) : Bool :=
  match value.as_object with
  | none => false
  | some object_val =>
    if schema.required.any fun field => !object_contains_key field object_val then false
    else if !(schema.properties.all fun fp =>
        match resolve_schema spec fp.2 with
        | .ok resolved_schema =>
          match alist_find fp.1 object_val with
          | some object_field_val => recur object_field_val resolved_schema spec
          | none => true
        | .error _ => true) then false
    else true

/-- `OpenApiValidator::validate_for_type` -/
def validate_for_type (o : Oracles) (recur : Value → ObjectSchema → Spec → Bool)
    (value : Value) (type_val : SchemaType) (schema : SchemaCore ObjectSchema) (spec : Spec) :
    Bool :=
  match type_val with
  | .boolean => validate_boolean_rules value schema
  | .integer => validate_integer_rules o value schema
  | .number => validate_number_rules value schema
  | .string => validate_string_rules o value schema
  | .array => validate_array_rules recur value schema spec
  | .object => validate_object_rules recur value schema spec
  | .null => validate_null_rules value schema

/-- `OpenApiValidator::validate_with_schema`.  The `fuel` bounds the `$ref` /
`items` / `properties` recursion depth (unbounded stack recursion in Rust);
exhausted fuel yields `false`.  A composition member whose reference fails to
resolve is not counted, mirroring the `if let Ok` skips around `valid_count`. -/
def validate_with_schema (o : Oracles) : Nat → Value → ObjectSchema → Spec → Bool
  | 0, _, _, _ => false
  | fuel + 1, value, schema, spec =>
    let recur := fun v s sp => validate_with_schema o fuel v s sp
    match schema.core.schema_type with
    | some (.single type_val) => validate_for_type o recur value type_val schema.core spec
    | some (.multiple type_vals) =>
      type_vals.any fun type_val => validate_for_type o recur value type_val schema.core spec
    | none =>
      if !schema.core.one_of.isEmpty || !schema.core.all_of.isEmpty
          || !schema.core.any_of.isEmpty then
        if !schema.core.all_of.isEmpty then
          (schema.core.all_of.countP fun sref =>
            match resolve_schema spec sref with
            | .ok resolved => recur value resolved spec
            | .error _ => false) == schema.core.all_of.length
        else if !schema.core.any_of.isEmpty then
          decide (0 < schema.core.any_of.countP fun sref =>
            match resolve_schema spec sref with
            | .ok resolved => recur value resolved spec
            | .error _ => false)
        else
          (schema.core.one_of.countP fun sref =>
            match resolve_schema spec sref with
            | .ok resolved => recur value resolved spec
            | .error _ => false) == 1
      else
        false

end OpenApiValidator

end IdemOpenApi

namespace IdemOpenApi

/-- `pub struct OpenApiValidator { specification: OpenApiV3Spec }` -/
structure OpenApiValidatorS where
  specification : Spec

namespace OpenApiValidator

/-- `OpenApiValidator::get_param_value` — resolve each endpoint parameter in
order and return the first whose `name` equals the requested one; parameters
that fail to resolve are skipped. -/
def get_param_value (v : OpenApiValidatorS) (param_name : Str)
    (endpoint_params : List (ObjectOrReference Parameter)) : Option Parameter :=
  endpoint_params.findSome? fun param_or_ref =>
    match resolve_parameter v.specification param_or_ref with
    | .ok param => if param.name == param_name then some param else none
    | .error _ => none

/-- `spec_segment.find('{')` / `find('}')` as character indices. -/
def find_char_idx (c : Char) (s : Str) : Option Nat :=
  s.findIdx? (· == c)

/-- The parameter name between `{` and `}` — `&spec_segment[start + 1..end]`. -/
def param_name_slice (s : Str) (start stop : Nat) : Str :=
  (s.drop (start + 1)).take (stop - (start + 1))

/-- One iteration of the `for_each` in `match_path_segments`: does this
spec-path segment accept the target segment?  A parameter segment accepts only
when its declaration is found, its schema resolves, and the target segment —
wrapped as a JSON string by `json!(target_segment)` — validates against that
schema; otherwise the segment stays unmatched.  A literal segment accepts by
string equality. -/
def seg_matches (o : Oracles) (fuel : Nat) (v : OpenApiValidatorS)
    (path_method_item_params : List (ObjectOrReference Parameter))
    (spec_segment target_segment : Str) : Bool :=
  match find_char_idx '{' spec_segment, find_char_idx '}' spec_segment with
  | some start, some stop =>
    let spec_segment_param_name := param_name_slice spec_segment start stop
    match get_param_value v spec_segment_param_name path_method_item_params with
    | some spec_segment_param_value =>
      match spec_segment_param_value.schema with
      | some resolved_schema =>
        match resolve_schema v.specification resolved_schema with
        | .ok schema =>
          validate_with_schema o fuel (Value.str target_segment) schema v.specification
        | .error _ => false
      | none => false
    | none => false
  | _, _ => spec_segment == target_segment

/-- `OpenApiValidator::match_path_segments` — both paths are split on `/`, the
segment lists are zipped (truncating to the shorter), and the imperative
counters `matching_segments` / `segment_count` denote the number of accepting
zip pairs and the zip length; the paths match when the two are equal. -/
def match_path_segments (o : Oracles) (fuel : Nat) (v : OpenApiValidatorS)
    (target_path spec_path : Str)
    (path_method_item_params : List (ObjectOrReference Parameter)) : Bool :=
  let pairs := (spec_path.splitOn '/').zip (target_path.splitOn '/')
  (pairs.countP fun p => seg_matches o fuel v path_method_item_params p.1 p.2) == pairs.length

/-- `OpenApiValidator::get_matching_operation` — iterate the spec paths in
order; for each, look for an operation under the requested method (compared
verbatim against the upper-case method names); return the first whose path
template matches. -/
def get_matching_operation (o : Oracles) (fuel : Nat) (v : OpenApiValidatorS)
    (path_to_match method_to_match : Str) : Option Operation :=
  match v.specification.paths with
  | none => none
  | some spec_paths =>
    spec_paths.findSome? fun sp =>
      match sp.2.methods.find? fun mo => mo.1 == method_to_match with
      | some mo =>
        if match_path_segments o fuel v path_to_match sp.1 mo.2.parameters then
          some mo.2
        else
          none
      | none => none

/-- `str::starts_with` -/
def starts_with (s pre : Str) : Bool :=
  pre.isPrefixOf s

/-- `OpenApiValidator::validate_request_body` — find a `content-type` header
case-insensitively; split its value on `;` and keep the first token starting
with `application`, `multipart` or `text`; look that media type up in the
request body's `content` and validate the body against its schema.  Every
missing piece yields `false`. -/
def validate_request_body (o : Oracles) (fuel : Nat) (body : Value)
    (request_schema : RequestBody) (headers : List (Str × Str)) (spec : Spec) : Bool :=
  match headers.find? fun hv => hv.1.map Char.toLower == "content-type".toList with
  | some hv =>
    match (hv.2.splitOn ';').find? fun segment =>
        starts_with segment "application".toList || starts_with segment "multipart".toList
          || starts_with segment "text".toList with
    | some data_type =>
      match alist_find data_type request_schema.content with
      | some content =>
        match content.schema with
        | some matching_schema =>
          match resolve_schema spec matching_schema with
          | .ok resolved_schema => validate_with_schema o fuel body resolved_schema spec
          | .error _ => false
        | none => false
      | none => false
    | none => false
  | none => false

/-- `OpenApiValidator::validate_parameters` — for each resolvable parameter:
when a header of that name is present, a parameter with a `content` field hits
a `todo!()` (see `Oracles.param_content_todo`), otherwise its schema (when it
resolves) must validate the header value as a JSON string; when the header is
absent the parameter must not be `required: true`. -/
def validate_parameters (o : Oracles) (fuel : Nat) (headers : List (Str × Str))
    (parameters : List (ObjectOrReference Parameter)) (spec : Spec) : Bool :=
  parameters.all fun parameter =>
    match resolve_parameter spec parameter with
    | .error _ => true
    | .ok resolved_param =>
      match headers.find? fun hv => hv.1 == resolved_param.name with
      | some hv =>
        match resolved_param.content with
        | some _ => o.param_content_todo
        | none =>
          match resolved_param.schema with
          | some schema =>
            match resolve_schema spec schema with
            | .ok schema => validate_with_schema o fuel (Value.str hv.2) schema spec
            | .error _ => true
          | none => true
      | none => !(resolved_param.required.getD false)

/-- `OpenApiValidator::validate_request`.  Body validation runs only when the
operation declares a request body AND a body AND headers are all present (the
triple `if let (Some, Some, Some)` in the source); a request body reference
that fails to resolve skips body validation.  Parameter validation filters the
operation's parameters by location and runs only for the argument maps that
are present. -/
def validate_request (o : Oracles) (fuel : Nat) (v : OpenApiValidatorS)
    (path method : Str) (headers : Option (List (Str × Str)))
    (query_params : Option (List (Str × Str))) (body : Option Value) : Except Unit Unit :=
  match get_matching_operation o fuel v path method with
  | none => .error ()
  | some operation =>
    let body_ok : Bool :=
      match operation.request_body, body, headers with
      | some request_schema, some b, some hs =>
        match resolve_request_body v.specification request_schema with
        | .ok resolved_schema => validate_request_body o fuel b resolved_schema hs v.specification
        | .error _ => true
      | _, _, _ => true
    if !body_ok then .error ()
    else if !operation.parameters.isEmpty then
      let headers_ok : Bool :=
        match headers with
        | some hs =>
          let relevant_parameters := operation.parameters.filter fun param =>
            match resolve_parameter v.specification param with
            | .ok p => p.location == ParameterIn.header
            | .error _ => false
          validate_parameters o fuel hs relevant_parameters v.specification
        | none => true
      if !headers_ok then .error ()
      else
        let query_ok : Bool :=
          match query_params with
          | some qs =>
            let relevant_parameters := operation.parameters.filter fun param =>
              match resolve_parameter v.specification param with
              | .ok p => p.location == ParameterIn.query
              | .error _ => false
            validate_parameters o fuel qs relevant_parameters v.specification
          | none => true
        if !query_ok then .error () else .ok ()
    else .ok ()

end OpenApiValidator

/-- Lexical parse of a decimal integer (Rust `str::parse::<i64>` shape:
optional sign, at least one digit, digits only). -/
def parse_int (s : Str) : Option Int :=
  let digits_val : Str → Option Nat := fun ds =>
    if ds.isEmpty then none
    else if ds.all Char.isDigit then
      some (ds.foldl (fun acc c => acc * 10 + (c.toNat - '0'.toNat)) 0)
    else none
  match s with
  | '-' :: rest => (digits_val rest).map fun n => -(n : Int)
  | '+' :: rest => (digits_val rest).map fun n => (n : Int)
  | _ => (digits_val s).map fun n => (n : Int)

/-- Modelled from the spec: `try_cast_to_type` is referenced by
`node_finder.rs` but its definition is absent from the sources; per §4.4 the
router "attempts a lexical cast of the concrete segment to every declared type
in order" over the OpenAPI-style types boolean, integer, number and string.  A
cast to string always succeeds with the segment itself; boolean accepts the
literals `true`/`false`; integer and number accept decimal numerals (numbers
are integer-valued in this embedding); the remaining schema types have no
lexical cast. -/
def try_cast_to_type (target_segment : Str) (t : SchemaType) : Option Value :=
  match t with
  | .string => some (.str target_segment)
  | .boolean =>
    if target_segment == "true".toList then some (.bool true)
    else if target_segment == "false".toList then some (.bool false)
    else none
  | .integer => (parse_int target_segment).map .num
  | .number => (parse_int target_segment).map .num
  | .array => none
  | .object => none
  | .null => none

/-- The declared types of a type set, as a list. -/
def SchemaTypeSet.toList : SchemaTypeSet → List SchemaType
  | .single t => [t]
  | .multiple ts => ts

end IdemOpenApi

namespace IdemOpenApi

/-! ### Concrete fixtures for the routing and validation claims -/

/-- A validator over the empty specification. -/
def emptyValidator : OpenApiValidatorS := ⟨{}⟩

/-- Path parameter `id` declared with `type: integer` (spec scenario 4). -/
def petIdParam : Parameter :=
  { name := "id".toList
    location := .path
    required := some true
    schema := some (.obj (ObjectSchema.mk { schema_type := some (.single .integer) })) }

/-- `GET /pet/findById/{id}` operation carrying the `id` parameter. -/
def petFindByIdOp : Operation :=
  { parameters := [.obj petIdParam] }

/-- Specification with the single template `/pet/findById/{id}` under `GET`. -/
def petValidator : OpenApiValidatorS :=
  ⟨{ paths := some [("/pet/findById/{id}".toList, { get := some petFindByIdOp })] }⟩

/-- `POST /pet` operation declaring a JSON request body whose schema requires
the field `name`. -/
def petPostOp : Operation :=
  { request_body := some (.obj
      { content := [("application/json".toList,
          { schema := some (.obj (ObjectSchema.mk
              { schema_type := some (.single .object)
                required := ["name".toList] })) })]
        required := some true }) }

/-- Specification with the single template `/pet` under `POST`. -/
def petPostValidator : OpenApiValidatorS :=
  ⟨{ paths := some [("/pet".toList, { post := some petPostOp })] }⟩

/-! ### Helper lemmas about the segment matcher -/

/-- The matcher accepts exactly when every zipped (template, concrete) segment
pair is accepted — the zip truncates to the shorter of the two segment lists,
so surplus segments on either side do not participate in the verdict. -/
theorem match_path_segments_true_iff (o : Oracles) (fuel : Nat) (v : OpenApiValidatorS)
    (target_path spec_path : Str) (params : List (ObjectOrReference Parameter)) :
    OpenApiValidator.match_path_segments o fuel v target_path spec_path params = true ↔
      ∀ p ∈ (spec_path.splitOn '/').zip (target_path.splitOn '/'),
        OpenApiValidator.seg_matches o fuel v params p.1 p.2 = true := by
  unfold OpenApiValidator.match_path_segments
  rw [beq_iff_eq]
  exact List.countP_eq_length

/-- A JSON string satisfies no non-`string` schema type check. -/
theorem validate_for_type_str_false (o : Oracles)
    (recur : Value → ObjectSchema → Spec → Bool) (s : Str) (t : SchemaType)
    (core : SchemaCore ObjectSchema) (spec : Spec) (ht : t ≠ SchemaType.string) :
    OpenApiValidator.validate_for_type o recur (Value.str s) t core spec = false := by
  cases t <;>
    simp_all [OpenApiValidator.validate_for_type, OpenApiValidator.validate_boolean_rules,
      OpenApiValidator.validate_integer_rules, OpenApiValidator.validate_number_rules,
      OpenApiValidator.validate_array_rules, OpenApiValidator.validate_object_rules,
      OpenApiValidator.validate_null_rules, Value.as_bool, Value.as_i64, Value.as_f64,
      Value.as_array, Value.as_object, Value.as_null]

/-- When no declared type of the parameter's schema admits a lexical cast of
the segment, the segment — validated as a JSON string — fails the schema. -/
theorem validate_with_schema_str_cast_fail (o : Oracles) (fuel : Nat) (s : Str)
    (S : ObjectSchema) (spec : Spec) (ts : SchemaTypeSet)
    (hts : S.core.schema_type = some ts)
    (hcast : ∀ t ∈ ts.toList, try_cast_to_type s t = none) :
    OpenApiValidator.validate_with_schema o fuel (Value.str s) S spec = false := by
  cases fuel with
  | zero => rfl
  | succ n =>
    unfold OpenApiValidator.validate_with_schema
    rw [hts]
    cases ts with
    | single t =>
      have ht : t ≠ SchemaType.string := by
        intro h
        subst h
        have := hcast .string (by simp [SchemaTypeSet.toList])
        simp [try_cast_to_type] at this
      simpa using validate_for_type_str_false o _ s t S.core spec ht
    | multiple tlist =>
      simp only []
      rw [List.any_eq_false]
      intro t htl
      have ht : t ≠ SchemaType.string := by
        intro h
        subst h
        have := hcast .string (by simpa [SchemaTypeSet.toList] using htl)
        simp [try_cast_to_type] at this
      have hv := validate_for_type_str_false o
        (fun v s sp => OpenApiValidator.validate_with_schema o n v s sp) s t S.core spec ht
      simp [hv]

/-- A parameter segment whose declared types all reject the lexical cast of
the concrete segment is not accepted by the per-segment matcher. -/
theorem seg_matches_param_cast_fail (o : Oracles) (fuel : Nat) (v : OpenApiValidatorS)
    (params : List (ObjectOrReference Parameter)) (specSeg targetSeg : Str)
    (start stop : Nat) (p : Parameter) (sref : ObjectOrReference ObjectSchema)
    (S : ObjectSchema) (ts : SchemaTypeSet)
    (h1 : OpenApiValidator.find_char_idx '{' specSeg = some start)
    (h2 : OpenApiValidator.find_char_idx '}' specSeg = some stop)
    (hp : OpenApiValidator.get_param_value v
        (OpenApiValidator.param_name_slice specSeg start stop) params = some p)
    (hsch : p.schema = some sref)
    (hres : resolve_schema v.specification sref = .ok S)
    (hts : S.core.schema_type = some ts)
    (hcast : ∀ t ∈ ts.toList, try_cast_to_type targetSeg t = none) :
    OpenApiValidator.seg_matches o fuel v params specSeg targetSeg = false := by
  unfold OpenApiValidator.seg_matches
  rw [h1, h2]
  simp only [hp, hsch, hres]
  exact validate_with_schema_str_cast_fail o fuel targetSeg S v.specification ts hts hcast

end IdemOpenApi

/-! ## Claims C3, C4, C5, C10 -/

/-- C3: a path template containing a typed path parameter does not match a
concrete path whose segment at the parameter position cannot be lexically cast
to any of the parameter's declared types — the matcher validates the raw
segment as a JSON string, which fails every non-`string` declared type — and
in particular `GET /pet/findById/abc` against the template
`/pet/findById/{id}` with `id : integer` resolves to no operation. -/
theorem C3_uncastable_param_segment_rejects (o : IdemOpenApi.Oracles) (fuel : Nat)
    (v : IdemOpenApi.OpenApiValidatorS) (target_path spec_path : Str)
    (params : List (IdemOpenApi.ObjectOrReference IdemOpenApi.Parameter))
    (specSeg targetSeg : Str) (start stop : Nat) (p : IdemOpenApi.Parameter)
    (sref : IdemOpenApi.ObjectOrReference IdemOpenApi.ObjectSchema)
    (S : IdemOpenApi.ObjectSchema) (ts : IdemOpenApi.SchemaTypeSet)
    (hmem : (specSeg, targetSeg) ∈ (spec_path.splitOn '/').zip (target_path.splitOn '/'))
    (h1 : IdemOpenApi.OpenApiValidator.find_char_idx '{' specSeg = some start)
    (h2 : IdemOpenApi.OpenApiValidator.find_char_idx '}' specSeg = some stop)
    (hp : IdemOpenApi.OpenApiValidator.get_param_value v
        (IdemOpenApi.OpenApiValidator.param_name_slice specSeg start stop) params = some p)
    (hsch : p.schema = some sref)
    (hres : IdemOpenApi.resolve_schema v.specification sref = .ok S)
    (hts : S.core.schema_type = some ts)
    (hcast : ∀ t ∈ ts.toList, IdemOpenApi.try_cast_to_type targetSeg t = none) :
    IdemOpenApi.OpenApiValidator.match_path_segments o fuel v target_path spec_path params = false
    ∧ IdemOpenApi.OpenApiValidator.get_matching_operation IdemOpenApi.trivialOracles 1
        IdemOpenApi.petValidator "/pet/findById/abc".toList "GET".toList = none := by
  constructor
  · have hseg := IdemOpenApi.seg_matches_param_cast_fail o fuel v params specSeg targetSeg
      start stop p sref S ts h1 h2 hp hsch hres hts hcast
    cases hb : IdemOpenApi.OpenApiValidator.match_path_segments o fuel v target_path
        spec_path params with
    | false => rfl
    | true =>
      have hall := (IdemOpenApi.match_path_segments_true_iff o fuel v target_path
        spec_path params).mp hb
      have := hall (specSeg, targetSeg) hmem
      rw [hseg] at this
      exact absurd this (by simp)
  · rfl

/-- C3 witness: the hypotheses hold at the concrete pet-store fixture and the
template is indeed rejected for `/pet/findById/abc`. -/
theorem C3_uncastable_param_segment_witness :
    IdemOpenApi.OpenApiValidator.match_path_segments IdemOpenApi.trivialOracles 1
      IdemOpenApi.petValidator "/pet/findById/abc".toList "/pet/findById/{id}".toList
      [.obj IdemOpenApi.petIdParam] = false :=
  (C3_uncastable_param_segment_rejects IdemOpenApi.trivialOracles 1 IdemOpenApi.petValidator
    "/pet/findById/abc".toList "/pet/findById/{id}".toList [.obj IdemOpenApi.petIdParam]
    "{id}".toList "abc".toList 0 3 IdemOpenApi.petIdParam
    (.obj (IdemOpenApi.ObjectSchema.mk { schema_type := some (.single .integer) }))
    (IdemOpenApi.ObjectSchema.mk { schema_type := some (.single .integer) })
    (.single .integer)
    (by decide) rfl rfl rfl rfl rfl rfl
    (by
      intro t ht
      simp [IdemOpenApi.SchemaTypeSet.toList] at ht
      subst ht
      rfl)).1

/-- C4 counterexample: the claim says a concrete path with more segments than
the template never matches.  The matcher zips the two segment lists — `zip`
truncates to the shorter — so `/pet/extra` (3 segments) matches the template
`/pet` (2 segments): both zipped pairs agree and the surplus segment is never
examined. -/
theorem C4_cex_surplus_segments_match :
    IdemOpenApi.OpenApiValidator.match_path_segments IdemOpenApi.trivialOracles 1
      IdemOpenApi.emptyValidator "/pet/extra".toList "/pet".toList [] = true
    ∧ ("/pet".toList.splitOn '/').length = 2
    ∧ ("/pet/extra".toList.splitOn '/').length = 3 := by
  refine ⟨rfl, rfl, rfl⟩

/-- C4 amended: the matcher compares only the zipped prefix of the template
and concrete segment lists (truncating to the shorter) and declares a match
exactly when every zipped pair matches; segment counts are never compared, so
a concrete path with surplus segments — in either direction — can match, as
the two concrete conjuncts show for a template shorter and longer than the
path. -/
theorem C4_match_ignores_segment_counts (o : IdemOpenApi.Oracles) (fuel : Nat)
    (v : IdemOpenApi.OpenApiValidatorS) (target_path spec_path : Str)
    (params : List (IdemOpenApi.ObjectOrReference IdemOpenApi.Parameter)) :
    (IdemOpenApi.OpenApiValidator.match_path_segments o fuel v target_path spec_path params
        = true ↔
      ∀ p ∈ (spec_path.splitOn '/').zip (target_path.splitOn '/'),
        IdemOpenApi.OpenApiValidator.seg_matches o fuel v params p.1 p.2 = true)
    ∧ IdemOpenApi.OpenApiValidator.match_path_segments IdemOpenApi.trivialOracles 1
        IdemOpenApi.emptyValidator "/pet".toList "/pet/extra".toList [] = true := by
  exact ⟨IdemOpenApi.match_path_segments_true_iff o fuel v target_path spec_path params, rfl⟩

/-- C5 counterexample: the claim says `validate_request` with a body but no
headers errors with a missing-content-type report.  The source validates the
body only under `if let (Some(request_schema), Some(body), Some(headers))`;
with `headers = None` the body check is skipped entirely and the call
succeeds, although the matched `POST /pet` operation declares a (required)
request body and the supplied body `{}` does not even satisfy its schema. -/
theorem C5_cex_no_headers_skips_body_validation :
    IdemOpenApi.petPostOp.request_body.isSome = true
    ∧ IdemOpenApi.OpenApiValidator.validate_request IdemOpenApi.trivialOracles 2
        IdemOpenApi.petPostValidator "/pet".toList "POST".toList none none
        (some (IdemOpenApi.Value.obj [])) = Except.ok () := by
  refine ⟨rfl, rfl⟩

/-- C5 amended: the missing-content-type rejection exists only inside
`validate_request_body`, which requires a headers map to be present: whenever
the supplied headers contain no `content-type` entry (case-insensitively),
body validation returns `false`; but when `validate_request` receives a body
and NO headers map at all, body validation is skipped and the request
validates successfully. -/
theorem C5_no_content_type_vs_no_headers (o : IdemOpenApi.Oracles) (fuel : Nat)
    (body : IdemOpenApi.Value) (request_schema : IdemOpenApi.RequestBody)
    (headers : List (Str × Str)) (spec : IdemOpenApi.Spec)
    (h : ∀ hv ∈ headers, hv.1.map Char.toLower ≠ "content-type".toList) :
    IdemOpenApi.OpenApiValidator.validate_request_body o fuel body request_schema headers spec
        = false
    ∧ ∀ b : IdemOpenApi.Value,
        IdemOpenApi.OpenApiValidator.validate_request o fuel IdemOpenApi.petPostValidator
          "/pet".toList "POST".toList none none (some b) = Except.ok () := by
  constructor
  · have hf : headers.find?
        (fun hv => hv.1.map Char.toLower == "content-type".toList) = none := by
      rw [List.find?_eq_none]
      intro hv hmem
      simp only [beq_iff_eq]
      exact h hv hmem
    unfold IdemOpenApi.OpenApiValidator.validate_request_body
    rw [hf]
  · intro b
    rfl

/-- C5 amended witness: headers that carry no content type make body
validation fail. -/
theorem C5_no_content_type_witness :
    IdemOpenApi.OpenApiValidator.validate_request_body IdemOpenApi.trivialOracles 1
      (IdemOpenApi.Value.obj []) {} [("accept".toList, "application/json".toList)] {} = false :=
  (C5_no_content_type_vs_no_headers IdemOpenApi.trivialOracles 1 (IdemOpenApi.Value.obj []) {}
    [("accept".toList, "application/json".toList)] {} (by decide)).1

/-- C10: a schema that declares no `type` and whose `allOf`, `anyOf` and
`oneOf` lists are all empty — in particular the empty, unconstrained schema —
rejects every JSON value: `validate_with_schema` falls through both the
type-dispatch and the composition branch to the final `false`. -/
theorem C10_unconstrained_schema_rejects_all (o : IdemOpenApi.Oracles) (fuel : Nat)
    (v : IdemOpenApi.Value) (spec : IdemOpenApi.Spec) (s : IdemOpenApi.ObjectSchema)
    (h1 : s.core.schema_type = none) (h2 : s.core.all_of = [])
    (h3 : s.core.any_of = []) (h4 : s.core.one_of = []) :
    IdemOpenApi.OpenApiValidator.validate_with_schema o fuel v s spec = false := by
  cases fuel with
  | zero => rfl
  | succ n =>
    unfold IdemOpenApi.OpenApiValidator.validate_with_schema
    rw [h1]
    simp [h2, h3, h4]

/-- C10 witness: the empty schema rejects `null`. -/
theorem C10_unconstrained_schema_witness :
    (IdemOpenApi.ObjectSchema.mk {}).core.schema_type = none
    ∧ IdemOpenApi.OpenApiValidator.validate_with_schema IdemOpenApi.trivialOracles 1
        IdemOpenApi.Value.null (IdemOpenApi.ObjectSchema.mk {}) {} = false :=
  ⟨rfl, C10_unconstrained_schema_rejects_all IdemOpenApi.trivialOracles 1 IdemOpenApi.Value.null
    {} (IdemOpenApi.ObjectSchema.mk {}) rfl rfl rfl rfl⟩

namespace IdemJwt

open IdemHandler

/-!
## `idem-serverless/src/implementation/jwt/handler.rs` — the JWT handler

The external collaborators (JWK provider, `jsonwebtoken`'s `decode_header`,
`DecodingKey::from_rsa_components` and `decode`) are abstracted as an
environment of result-producing functions.  The claim-validation helpers
`validate_scope`, `validate_aud`, `validate_iss` and `validate_exp` all have
the body `todo!()` in the source (their intended bodies are commented out):
every call to them panics, which is modelled as the `none` outcome of the
`Option`-valued result. -/

/-- The two options of `JwtValidationHandlerConfig` the handler flow reads. -/
structure JwtValidationHandlerConfig where
  enabled : Bool
  scope_verification : Bool

/-- `jsonwebtoken::Header` (only `kid` is read). -/
structure JwtHeader where
  kid : Option Str

/-- `jsonwebtoken::jwk::AlgorithmParameters` — RSA components or anything
else. -/
inductive AlgorithmParameters where
  | rsa (n e : Str)
  | other

/-- One JWK: its key id and algorithm parameters. -/
structure Jwk where
  key_id : Option Str
  algorithm : AlgorithmParameters

/-- `jsonwebtoken::jwk::JwkSet` -/
structure JwkSet where
  keys : List Jwk

/-- `JwkSet::find` — first key whose `key_id` equals the requested `kid`. -/
def JwkSet.find (s : JwkSet) (kid : Str) : Option Jwk :=
  s.keys.find? fun k => k.key_id == some kid

/-- The fields of `ApiGatewayProxyRequest` that the handler reads. -/
structure ApiGatewayProxyRequest where
  headers : List (Str × Str)
  path : Option Str
  http_method : Str

/-- The JWT handler's external collaborators:
* `fetch_jwk` — `config.jwk_provider.jwk()` (local file or remote endpoint);
* `decode_header` — `jsonwebtoken::decode_header` on the token;
* `from_rsa_components` — `DecodingKey::from_rsa_components(n, e)`;
* `decode` — `jsonwebtoken::decode::<Value>` yielding the token claims. -/
structure JwtEnv where
  fetch_jwk : Except Unit JwkSet
  decode_header : Str → Except Unit JwtHeader
  from_rsa_components : Str → Str → Except Unit Unit
  decode : Str → Except Unit IdemOpenApi.Value

/-- `JwtValidationHandler::validate_scope` — the body is `todo!()`; every call
panics (`none`).  (The commented-out body would check the token's space-split
`scope` claim against the operation's security requirements.) -/
def validate_scope (_request_path _method : Str) (_claims : IdemOpenApi.Value) :
    Option (Except Unit Unit) :=
  none

/-- `JwtValidationHandler::validate_aud` — `todo!()`; every call panics. -/
def validate_aud (_claims : IdemOpenApi.Value) : Option (Except Unit Unit) :=
  none

/-- `JwtValidationHandler::validate_iss` — `todo!()`; every call panics. -/
def validate_iss (_claims : IdemOpenApi.Value) : Option (Except Unit Unit) :=
  none

/-- `JwtValidationHandler::validate_exp` — `todo!()`; every call panics. -/
def validate_exp (_claims : IdemOpenApi.Value) : Option (Except Unit Unit) :=
  none

/-- The tail of `exec` after scope verification: `validate_aud`,
`validate_iss`, `validate_exp`, then `OK`. -/
def exec_claim_rest (claims : IdemOpenApi.Value) : Option HandlerStatus :=
  match validate_aud claims with
  | none => none
  | some (.error _) =>
    some ((HandlerStatus.new Code.CLIENT_ERROR).set_message "Invalid audience for token")
  | some (.ok _) =>
    match validate_iss claims with
    | none => none
    | some (.error _) =>
      some ((HandlerStatus.new Code.CLIENT_ERROR).set_message "Invalid issuer for token")
    | some (.ok _) =>
      match validate_exp claims with
      | none => none
      | some (.error _) =>
        some ((HandlerStatus.new Code.CLIENT_ERROR).set_message "Expired token")
      | some (.ok _) => some (HandlerStatus.new Code.OK)

/-- The claim-validation phase of `exec`: optional scope verification, then
the remaining claim checks. -/
def exec_claim_checks (config : JwtValidationHandlerConfig) (request_path method : Str)
    (claims : IdemOpenApi.Value) : Option HandlerStatus :=
  if config.scope_verification then
    match validate_scope request_path method claims with
    | none => none
    | some (.error _) =>
      some ((HandlerStatus.new Code.CLIENT_ERROR).set_message "Invalid scope for token")
    | some (.ok _) => exec_claim_rest claims
  else
    exec_claim_rest claims

/-- `JwtValidationHandler::exec`.  The exchange's `input()` result is passed
in; a `none` result models a panic reached inside the handler (`todo!()`). -/
def exec (config : JwtValidationHandlerConfig) (env : JwtEnv)
    (input : Except Unit ApiGatewayProxyRequest) : Option HandlerStatus :=
  if !config.enabled then some (HandlerStatus.new Code.DISABLED)
  else
    match input with
    | .error _ =>
      some ((HandlerStatus.new Code.SERVER_ERROR).set_message "Unable to get request")
    | .ok request =>
      match request.headers.find? fun hv =>
          hv.1.map Char.toLower == "authorization".toList with
      | none => some ((HandlerStatus.new Code.CLIENT_ERROR).set_message "Missing JWT")
      | some hv =>
        let auth_header_parts := hv.2.splitOn ' '
        if auth_header_parts.length != 2
            || !((auth_header_parts.headD []).map Char.toLower == "bearer".toList) then
          some ((HandlerStatus.new Code.CLIENT_ERROR).set_message
            "Missing client bearer token header")
        else
          let token := auth_header_parts.getD 1 []
          match env.fetch_jwk with
          | .error _ =>
            some ((HandlerStatus.new Code.SERVER_ERROR).set_message "Unable to fetch JWKs")
          | .ok jwk_set =>
            match env.decode_header token with
            | .error _ =>
              some ((HandlerStatus.new Code.CLIENT_ERROR).set_message "Malformed JWT header")
            | .ok header =>
              match header.kid with
              | none =>
                some ((HandlerStatus.new Code.CLIENT_ERROR).set_message "JWT is missing kid")
              | some kid =>
                match jwk_set.find kid with
                | none =>
                  some ((HandlerStatus.new Code.CLIENT_ERROR).set_message
                    "No matching JWK for kid")
                | some matching_jwk =>
                  match matching_jwk.algorithm with
                  | .other =>
                    some ((HandlerStatus.new Code.CLIENT_ERROR).set_message
                      "Unsupported JWT algorithm")
                  | .rsa n e =>
                    match env.from_rsa_components n e with
                    | .error _ =>
                      some ((HandlerStatus.new Code.CLIENT_ERROR).set_message
                        "Malformed RSA key")
                    | .ok _ =>
                      match env.decode token with
                      | .error _ =>
                        some ((HandlerStatus.new Code.CLIENT_ERROR).set_message "Invalid JWT")
                      | .ok claims =>
                        match request.path with
                        | none =>
                          some ((HandlerStatus.new Code.CLIENT_ERROR).set_message
                            "Missing request path")
                        | some request_path =>
                          exec_claim_checks config request_path request.http_method claims

/-! ### Concrete fixture for claim C7 -/

/-- Environment in which every external step succeeds: one RSA JWK with kid
`k1`, a token header carrying that kid, and claims with
`scope = "write:users"`. -/
def c7Env : JwtEnv :=
  { fetch_jwk := .ok ⟨[{ key_id := some "k1".toList
                         algorithm := .rsa "n0".toList "e0".toList }]⟩
    decode_header := fun _ => .ok { kid := some "k1".toList }
    from_rsa_components := fun _ _ => .ok ()
    decode := fun _ => .ok (IdemOpenApi.Value.obj
      [("scope".toList, IdemOpenApi.Value.str "write:users".toList)]) }

/-- Handler enabled with scope verification on. -/
def c7Config : JwtValidationHandlerConfig :=
  { enabled := true, scope_verification := true }

/-- `GET /users` carrying a well-formed bearer token. -/
def c7Request : ApiGatewayProxyRequest :=
  { headers := [("Authorization".toList, "Bearer token123".toList)]
    path := some "/users".toList
    http_method := "GET".toList }

end IdemJwt

/-! ## Claim C7 -/

/-- C7: the claim says that on a scope mismatch the JWT handler returns a
`CLIENT_ERROR` status with message "Invalid scope for token" rather than
diverging or panicking.  In the source `validate_scope` (like `validate_aud`,
`validate_iss` and `validate_exp`) is `todo!()`: with scope verification
enabled and a fully valid token whose scope does not match, the handler panics
(`none`) instead of returning any status — and with scope verification
disabled it panics in `validate_aud` instead of returning `OK`, contradicting
the handler's own success-path test. -/
theorem C7_scope_verification_panics :
    IdemJwt.exec IdemJwt.c7Config IdemJwt.c7Env (.ok IdemJwt.c7Request) = none
    ∧ IdemJwt.exec IdemJwt.c7Config IdemJwt.c7Env (.ok IdemJwt.c7Request) ≠
        some ((IdemHandler.HandlerStatus.new IdemHandler.Code.CLIENT_ERROR).set_message
          "Invalid scope for token")
    ∧ IdemJwt.exec { enabled := true, scope_verification := false } IdemJwt.c7Env
        (.ok IdemJwt.c7Request) = none := by
  refine ⟨rfl, ?_, rfl⟩
  intro h
  exact Option.noConfusion (rfl.symm.trans h)

namespace IdemOpenApi

/-! ### Counterexample fixture for claim C3: a parameter whose cast value
fails the schema while the raw-string validation passes -/

/-- Parameter schema `{type: [integer, string], maximum: 5}`. -/
def c3CexSchema : ObjectSchema :=
  .mk { schema_type := some (.multiple [.integer, .string])
        maximum := some 5 }

/-- Path parameter `id` declared with that schema. -/
def c3CexParam : Parameter :=
  { name := "id".toList
    location := .path
    required := some true
    schema := some (.obj c3CexSchema) }

/-- `GET /pet/findById/{id}` operation carrying the parameter. -/
def c3CexOp : Operation :=
  { parameters := [.obj c3CexParam] }

/-- Specification with the single template `/pet/findById/{id}` under `GET`. -/
def c3CexValidator : OpenApiValidatorS :=
  ⟨{ paths := some [("/pet/findById/{id}".toList, { get := some c3CexOp })] }⟩

end IdemOpenApi

/-- C3 counterexample: the claim's second branch says that when the cast value
fails the parameter's schema the template does not match.  For the schema
`{type: [integer, string], maximum: 5}` and the segment `12`, the first
successful lexical cast (integer, first in declaration order) yields the JSON
number `12`, which fails the schema — `12 > maximum 5` in the integer branch
and a number is not a string — yet the live matcher never performs the cast:
it validates the raw segment as the JSON string `"12"`, which passes the
unconstrained `string` branch of the multi-type dispatch, so the template
matches and route resolution succeeds, contradicting the claim. -/
theorem C3_cex_cast_value_fails_schema_yet_matches :
    IdemOpenApi.try_cast_to_type "12".toList IdemOpenApi.SchemaType.integer
      = some (IdemOpenApi.Value.num 12)
    ∧ IdemOpenApi.OpenApiValidator.validate_with_schema IdemOpenApi.trivialOracles 1
        (IdemOpenApi.Value.num 12) IdemOpenApi.c3CexSchema
        IdemOpenApi.c3CexValidator.specification = false
    ∧ IdemOpenApi.OpenApiValidator.match_path_segments IdemOpenApi.trivialOracles 1
        IdemOpenApi.c3CexValidator "/pet/findById/12".toList "/pet/findById/{id}".toList
        [.obj IdemOpenApi.c3CexParam] = true
    ∧ IdemOpenApi.OpenApiValidator.get_matching_operation IdemOpenApi.trivialOracles 1
        IdemOpenApi.c3CexValidator "/pet/findById/12".toList "GET".toList
      = some IdemOpenApi.c3CexOp := by
  refine ⟨rfl, rfl, rfl, rfl⟩
